import Mathlib

/-!
Verification of the playback/favorites/history state logic of a
browser-based music player (a single React component, `src/src/App.jsx`,
third variant starting at line 175).  The definitions below are a shallow
embedding of the JavaScript handlers of that component; JavaScript numbers
that can be `NaN` or infinite are modelled by the `JsNum` type, array
indexing with possibly negative indices by `jsIndex`, and `findIndex`
(returning `-1` on no match) by `jsFindIndex`.
-/

/-- A catalog track record.  The application only ever inspects the
`id` field (for collection membership) and carries the rest of the record
opaquely; display-only metadata (album object, cover URLs, duration in
seconds) is elided as it never flows into the logic under verification. -/
structure Track where
  id : Int
  title : String
  artist : String
  preview : String
deriving DecidableEq

/-- The recently-played update performed inside `playTrack`
(App.jsx lines 397-400):
`prev => [track, ...prev.filter(t => t.id !== track.id)].slice(0, 10)`. -/
def recordPlay (track : Track) (prev : List Track) : List Track :=
  (track :: prev.filter (fun t => t.id != track.id)).take 10

/-- `toggleFavorite` (App.jsx lines 491-502): if a favorite with the same
id is present, remove it (`prev.filter(fav => fav.id !== track.id)`),
else append the track (`[...prev, track]`). -/
def toggleFavorite (track : Track) (prev : List Track) : List Track :=
  if prev.any (fun fav => fav.id == track.id) then
    prev.filter (fun fav => fav.id != track.id)
  else
    prev ++ [track]

/-- `isFavorite` (App.jsx line 509):
`favorites.some(fav => fav.id === trackId)`. -/
def isFavorite (favorites : List Track) (trackId : Int) : Bool :=
  favorites.any (fun fav => fav.id == trackId)

/-- A finite sequence of `toggleFavorite` calls applied to the empty
favorites collection, in call order. -/
def applyToggles (calls : List Track) : List Track :=
  calls.foldl (fun favs t => toggleFavorite t favs) []

/-- JavaScript `Array.prototype.findIndex`: index of the first element
satisfying the predicate, `-1` when there is none. -/
def jsFindIndex (p : Track → Bool) : List Track → Int
  | [] => -1
  | t :: ts =>
    if p t then 0
    else
      let r := jsFindIndex p ts
      if r = -1 then -1 else r + 1

/-- JavaScript array subscripting `arr[i]` with an integer index:
out-of-range and negative indices yield `undefined`, modelled as `none`. -/
def jsIndex (l : List Track) (i : Int) : Option Track :=
  if 0 ≤ i then l.get? i.toNat else none

/-- The track selected by `playNext` (App.jsx lines 430-436): guard on an
empty result list, then `tracks[(currentIndex + 1) % tracks.length]` where
`currentIndex` is the JS `findIndex` by id.  The JS `%` agrees with `Int`'s
`%` here because the dividend `currentIndex + 1` is never negative.
`none` means the guard returned (no selection was made). -/
def playNextSel (tracks : List Track) (cur : Track) : Option Track :=
  if tracks.length = 0 then none
  else
    let currentIndex := jsFindIndex (fun t => t.id == cur.id) tracks
    jsIndex tracks ((currentIndex + 1) % (tracks.length : Int))

/-- The track selected by `playPrevious` (App.jsx lines 442-449):
`prevIndex = currentIndex === 0 ? tracks.length - 1 : currentIndex - 1`,
then `tracks[prevIndex]`.  When `findIndex` returned `-1`, `prevIndex`
is `-2` and the lookup yields `undefined` (`none`). -/
def playPrevSel (tracks : List Track) (cur : Track) : Option Track :=
  if tracks.length = 0 then none
  else
    let currentIndex := jsFindIndex (fun t => t.id == cur.id) tracks
    let prevIndex := if currentIndex = 0 then (tracks.length : Int) - 1
                     else currentIndex - 1
    jsIndex tracks prevIndex

/-- `n` successive `playNext` selections starting from `cur`; each step
feeds the selected track back in as the new current track. -/
def iterateNext (tracks : List Track) : Nat → Track → Option Track
  | 0, c => some c
  | n + 1, c => (playNextSel tracks c).bind (iterateNext tracks n)

/-- Outcome of invoking `playTrack` on the value selected by
`playNext`/`playPrevious`. -/
inductive PlayOutcome
  | played (t : Track) (recent : List Track)
  | noop
  | typeError
deriving DecidableEq

/-- `playTrack(track)` (App.jsx lines 392-408) applied to a possibly
`undefined` argument: with a real track it sets the current track and
records the play; with `undefined` the recently-played updater evaluates
`track.id` on `undefined` and throws a `TypeError`. -/
def playTrackOn (recent : List Track) : Option Track → PlayOutcome
  | some t => .played t (recordPlay t recent)
  | none => .typeError

/-- Full `playNext` handler: the guard
`if (!currentTrack || tracks.length === 0) return;` then `playTrack` on
the selected element. -/
def playNext (tracks recent : List Track) (cur : Option Track) : PlayOutcome :=
  match cur with
  | none => .noop
  | some c =>
    if tracks.length = 0 then .noop
    else playTrackOn recent (playNextSel tracks c)

/-- Full `playPrevious` handler, with the same guard as `playNext`. -/
def playPrevious (tracks recent : List Track) (cur : Option Track) : PlayOutcome :=
  match cur with
  | none => .noop
  | some c =>
    if tracks.length = 0 then .noop
    else playTrackOn recent (playPrevSel tracks c)

/-- Result of running a `useState` lazy initializer that reads
localStorage (App.jsx lines 214-225): either a collection, or a crash when
an exception escapes the initializer. -/
inductive InitResult
  | ok (l : List Track)
  | crash
deriving DecidableEq

/-- The initializer `saved ? JSON.parse(saved) : []` shared by the
`musicFavorites` and `recentlyPlayed` keys.  `stored` is
`localStorage.getItem(key)` (`none` when the key is absent); `parse`
models `JSON.parse`, with `none` for a throw on malformed input.  The
empty string is falsy in JavaScript, so it short-circuits to `[]`.
There is no try/catch around `JSON.parse`, so a parse throw escapes. -/
def initCollection (stored : Option String) (parse : String → Option (List Track)) : InitResult :=
  match stored with
  | none => .ok []
  | some s =>
    if s = "" then .ok []
    else
      match parse s with
      | some l => .ok l
      | none => .crash

/-- State relevant to the volume invariant: the `volume` and `isMuted`
React state, and the `volume` property of the `<audio>` element when one
is mounted (`none` before the first track is selected; the element is
rendered only under `{currentTrack && ...}`, App.jsx line 780). -/
structure VolumeState where
  volume : ℚ
  isMuted : Bool
  audio : Option ℚ
deriving DecidableEq

/-- Initial state (App.jsx lines 210-211): `volume = 0.7`,
`isMuted = false`, no current track hence no audio element. -/
def initVolumeState : VolumeState :=
  { volume := 7/10, isMuted := false, audio := none }

/-- The user-driven events that touch the volume invariant. -/
inductive VolEvent
  | selectTrack
  | setVolume (x : ℚ)
  | setMuted (b : Bool)

/-- One event step.  `setVolume`/`setMuted` update the state and then the
effect with dependency list `[volume, isMuted]` (App.jsx lines 298-302)
runs: `if (audioRef.current) audioRef.current.volume = isMuted ? 0 : volume`.
`selectTrack` mounts the audio element when none exists; a freshly created
media element has the engine default volume `1`, and the effect does NOT
re-run (its dependencies did not change); when the element already exists
it is reconciled in place and keeps its volume property. -/
def volStep (s : VolumeState) : VolEvent → VolumeState
  | .selectTrack =>
    match s.audio with
    | none => { s with audio := some 1 }
    | some v => { s with audio := some v }
  | .setVolume x =>
    { volume := x, isMuted := s.isMuted,
      audio := s.audio.map (fun _ => if s.isMuted then 0 else x) }
  | .setMuted b =>
    { volume := s.volume, isMuted := b,
      audio := s.audio.map (fun _ => if b then 0 else s.volume) }

/-- Apply a sequence of events in order. -/
def volRun (s : VolumeState) (evs : List VolEvent) : VolumeState :=
  evs.foldl volStep s

/-- Drop leading whitespace characters from a character list. -/
def dropLeadingWs : List Char → List Char
  | [] => []
  | c :: cs => if c.isWhitespace then dropLeadingWs cs else c :: cs

/-- JavaScript `String.prototype.trim`: strip whitespace from both ends
(modelled over the string's character list). -/
def jsTrim (s : String) : String :=
  String.mk (((dropLeadingWs s.data).reverse |> dropLeadingWs).reverse)

/-- Outcome of `searchMusic` (App.jsx lines 337-375): the resulting
result list, whether the user-visible `alert` fired, and the final
`loading` flag (reset in `finally`). -/
structure SearchOutcome where
  tracks : List Track
  alerted : Bool
  loading : Bool
deriving DecidableEq

/-- `searchMusic`.  `primary` and `fallback` are the outcomes of the two
network attempts: `some l` when the request succeeded and its payload
parsed to a track array `l`, `none` when the request rejected or its
payload failed to parse (both are caught by the surrounding try/catch).
An empty or whitespace-only query returns before touching the network;
on double failure the handler alerts and never calls `setTracks`. -/
def searchMusic (query : String) (prior : List Track)
    (primary fallback : Option (List Track)) : SearchOutcome :=
  if jsTrim query = "" then { tracks := prior, alerted := false, loading := false }
  else
    match primary with
    | some res => { tracks := res.take 12, alerted := false, loading := false }
    | none =>
      match fallback with
      | some res => { tracks := res.take 12, alerted := false, loading := false }
      | none => { tracks := prior, alerted := true, loading := false }

/-- JavaScript numbers as they appear in the audio-progress code:
`NaN`, the two infinities, or a finite value (negative zero elided,
as nothing here distinguishes it from zero). -/
inductive JsNum
  | nan
  | posInf
  | negInf
  | num (q : ℚ)
deriving DecidableEq

/-- JavaScript division. -/
def JsNum.div : JsNum → JsNum → JsNum
  | .nan, _ => .nan
  | _, .nan => .nan
  | .num a, .num b =>
    if b = 0 then
      if a = 0 then .nan else if 0 < a then .posInf else .negInf
    else .num (a / b)
  | .num _, .posInf => .num 0
  | .num _, .negInf => .num 0
  | .posInf, .num b => if 0 ≤ b then .posInf else .negInf
  | .negInf, .num b => if 0 ≤ b then .negInf else .posInf
  | .posInf, .posInf => .nan
  | .posInf, .negInf => .nan
  | .negInf, .posInf => .nan
  | .negInf, .negInf => .nan

/-- JavaScript multiplication. -/
def JsNum.mul : JsNum → JsNum → JsNum
  | .nan, _ => .nan
  | _, .nan => .nan
  | .num a, .num b => .num (a * b)
  | .posInf, .num b => if b = 0 then .nan else if 0 < b then .posInf else .negInf
  | .num a, .posInf => if a = 0 then .nan else if 0 < a then .posInf else .negInf
  | .negInf, .num b => if b = 0 then .nan else if 0 < b then .negInf else .posInf
  | .num a, .negInf => if a = 0 then .nan else if 0 < a then .negInf else .posInf
  | .posInf, .posInf => .posInf
  | .posInf, .negInf => .negInf
  | .negInf, .posInf => .negInf
  | .negInf, .negInf => .posInf

/-- JavaScript falsiness of a number: `NaN` and `0` are falsy. -/
def JsNum.falsy : JsNum → Bool
  | .nan => true
  | .num q => q = 0
  | _ => false

/-- Whether a JavaScript number is finite. -/
def JsNum.isFinite : JsNum → Bool
  | .num _ => true
  | _ => false

/-- `x || 0`. -/
def jsOrZero (x : JsNum) : JsNum :=
  if x.falsy then .num 0 else x

/-- `handleTimeUpdate` (App.jsx lines 455-461): the progress value passed
to `setProgress`, namely
`(currentTime / duration) * 100 || 0`.  The surrounding
`if (audioRef.current)` guard is outside this model because the
`timeupdate` event only fires from a mounted element. -/
def handleTimeUpdate (currentTime duration : JsNum) : JsNum :=
  jsOrZero ((currentTime.div duration).mul (.num 100))

/-- Outcome of `handleProgressClick`. -/
inductive SeekOutcome
  | noop
  | seeked (newTime progress : JsNum)
  | seekError
deriving DecidableEq

/-- `handleProgressClick` (App.jsx lines 467-477).  Guard:
`if (!audioRef.current) return;`.  Then
`percentage = (clickPosition / offsetWidth) * 100` and
`newTime = (percentage / 100) * duration`, with NO clamping of either
value; assigning a non-finite `newTime` to `HTMLMediaElement.currentTime`
throws a `TypeError` (the IDL type is a restricted double), in which case
the subsequent `setProgress` is never reached. -/
def handleProgressClick (audioPresent : Bool) (duration : JsNum)
    (clickPosition offsetWidth : JsNum) : SeekOutcome :=
  if !audioPresent then .noop
  else
    let percentage := (clickPosition.div offsetWidth).mul (.num 100)
    let newTime := (percentage.div (.num 100)).mul duration
    if newTime.isFinite then .seeked newTime percentage else .seekError

/-- State touched by `togglePlayPause`: the current track, whether the
audio element is mounted, and the `isPlaying` flag. -/
structure PlaybackState where
  current : Option Track
  audioPresent : Bool
  isPlaying : Bool
deriving DecidableEq

/-- A command issued to the audio engine. -/
inductive AudioCmd
  | play
  | pause
deriving DecidableEq

/-- `togglePlayPause` (App.jsx lines 414-423): returns the next state and
the command sent to the audio element, if any.  Guard:
`if (!audioRef.current || !currentTrack) return;`. -/
def togglePlayPause (s : PlaybackState) : PlaybackState × Option AudioCmd :=
  if !s.audioPresent || s.current.isNone then (s, none)
  else
    ({ s with isPlaying := !s.isPlaying },
     some (if s.isPlaying then .pause else .play))

/-! ## Helper lemmas -/

theorem take_pos_head (n : Nat) (a : Track) (l : List Track) (h : 0 < n) :
    ((a :: l).take n).head? = some a := by
  cases n with
  | zero => omega
  | succ m => simp [List.take_succ_cons]

/-! ## C1: recently-played invariants -/

/-- C1: for every track `track` and every prior recently-played list with
no duplicate identifiers, after the `recordPlay` update performed inside
`playTrack` the list again has no duplicate identifiers, its length is at
most 10, the just-played track sits at index 0, and no entry after index 0
carries `track`'s identifier (the prior occurrence was removed before the
prepend). -/
theorem recordPlay_invariants (track : Track) (prev : List Track)
    (hnd : (prev.map Track.id).Nodup) :
    ((recordPlay track prev).map Track.id).Nodup ∧
    (recordPlay track prev).length ≤ 10 ∧
    (recordPlay track prev).head? = some track ∧
    ∀ u ∈ (recordPlay track prev).tail, u.id ≠ track.id := by
  have hsub : List.Sublist (prev.filter (fun t => t.id != track.id)) prev :=
    List.filter_sublist prev
  refine ⟨?_, ?_, ?_, ?_⟩
  · have h1 : (recordPlay track prev).map Track.id =
        ((track :: prev.filter (fun t => t.id != track.id)).map Track.id).take 10 := by
      simp [recordPlay, List.map_take]
    rw [h1]
    apply List.Nodup.sublist (List.take_sublist _ _)
    simp only [List.map_cons, List.nodup_cons]
    constructor
    · intro hmem
      rcases List.mem_map.mp hmem with ⟨u, hu, hid⟩
      have := (List.mem_filter.mp hu).2
      simp only [bne_iff_ne, ne_eq] at this
      exact this hid
    · exact List.Nodup.sublist (List.Sublist.map _ hsub) hnd
  · simp [recordPlay]
  · exact take_pos_head 10 track _ (by norm_num)
  · intro u hu
    have htail : (recordPlay track prev).tail =
        (prev.filter (fun t => t.id != track.id)).take 9 := by
      simp [recordPlay, List.take_succ_cons]
    rw [htail] at hu
    have hmem : u ∈ prev.filter (fun t => t.id != track.id) :=
      (List.take_sublist _ _).mem hu
    have := (List.mem_filter.mp hmem).2
    simpa [bne_iff_ne] using this

/-- Witness for C1 at a concrete input. -/
theorem recordPlay_invariants_witness :
    (([⟨2, "b", "b", "b"⟩].map Track.id).Nodup : Prop) ∧
    ((recordPlay ⟨1, "a", "a", "a"⟩ [⟨2, "b", "b", "b"⟩]).map Track.id).Nodup ∧
    (recordPlay ⟨1, "a", "a", "a"⟩ [⟨2, "b", "b", "b"⟩]).length ≤ 10 ∧
    (recordPlay ⟨1, "a", "a", "a"⟩ [⟨2, "b", "b", "b"⟩]).head? = some ⟨1, "a", "a", "a"⟩ ∧
    ∀ u ∈ (recordPlay ⟨1, "a", "a", "a"⟩ [⟨2, "b", "b", "b"⟩]).tail, u.id ≠ (1 : Int) := by
  refine ⟨by decide, ?_⟩
  have h := recordPlay_invariants ⟨1, "a", "a", "a"⟩ [⟨2, "b", "b", "b"⟩] (by decide)
  exact ⟨h.1, h.2.1, h.2.2.1, h.2.2.2⟩

/-! ## C2: favorites toggle parity -/

theorem isFavorite_toggle (u : Track) (favs : List Track) (i : Int) :
    isFavorite (toggleFavorite u favs) i =
      if u.id = i then !(isFavorite favs i) else isFavorite favs i := by
  unfold toggleFavorite isFavorite
  by_cases hmem : favs.any (fun fav => fav.id == u.id) = true
  · rw [if_pos hmem]
    by_cases hui : u.id = i
    · subst hui
      rw [if_pos rfl, hmem, Bool.not_true, List.any_eq_false]
      intro x hx
      have h2 := (List.mem_filter.mp hx).2
      simpa using h2
    · rw [if_neg hui, Bool.eq_iff_iff]
      simp only [List.any_eq_true, List.mem_filter]
      constructor
      · rintro ⟨x, ⟨hx, _⟩, hxi⟩
        exact ⟨x, hx, hxi⟩
      · rintro ⟨x, hx, hxi⟩
        have hxid : x.id = i := by simpa using hxi
        refine ⟨x, ⟨hx, ?_⟩, hxi⟩
        simp only [bne_iff_ne, ne_eq, hxid]
        exact fun h => hui h.symm
  · rw [if_neg hmem]
    have hfalse : favs.any (fun fav => fav.id == u.id) = false :=
      Bool.eq_false_iff.mpr hmem
    by_cases hui : u.id = i
    · subst hui
      rw [if_pos rfl, List.any_append, hfalse]
      simp
    · rw [if_neg hui, List.any_append]
      have hid : (u.id == i) = false := by
        simp only [beq_eq_false_iff_ne, ne_eq]
        exact hui
      simp [hid]

theorem parity_flip (b : Bool) (n : Nat) :
    (!b).xor (n % 2 == 1) = b.xor ((n + 1) % 2 == 1) := by
  by_cases hn : n % 2 = 1
  · have h2 : (n + 1) % 2 = 0 := by omega
    rw [hn, h2]
    cases b <;> rfl
  · have h0 : n % 2 = 0 := by omega
    have h2 : (n + 1) % 2 = 1 := by omega
    rw [h0, h2]
    cases b <;> rfl

theorem isFavorite_foldl (calls : List Track) (favs : List Track) (i : Int) :
    isFavorite (calls.foldl (fun fs t => toggleFavorite t fs) favs) i =
      (isFavorite favs i).xor (calls.countP (fun u => u.id == i) % 2 == 1) := by
  induction calls generalizing favs with
  | nil => simp
  | cons u rest ih =>
    rw [List.foldl_cons, ih, isFavorite_toggle, List.countP_cons]
    by_cases hui : u.id = i
    · have hpu : ((fun v => v.id == i) u) = true := by
        simp only [beq_iff_eq]
        exact hui
      rw [if_pos hui, if_pos hpu, parity_flip]
    · have hpu : ((fun v => v.id == i) u) = false := by
        simp only [beq_eq_false_iff_ne, ne_eq]
        exact hui
      have hcond : ¬((fun v => v.id == i) u = true) := by
        rw [hpu]
        simp
      rw [if_neg hui, if_neg hcond]
      simp

/-- C2: starting from the empty favorites collection, after any finite
sequence of `toggleFavorite` calls the collection contains a track with
`t`'s identifier exactly when the number of calls in the sequence whose
argument carries that identifier is odd. -/
theorem toggleFavorite_parity (calls : List Track) (t : Track) :
    isFavorite (applyToggles calls) t.id = true ↔
      (calls.countP (fun u => u.id == t.id)) % 2 = 1 := by
  rw [applyToggles, isFavorite_foldl]
  simp [isFavorite]

/-! ## C3: storage deserialization -/

/-- C3: the claim that a malformed persisted string degrades to the empty
collection is false for this code: `saved ? JSON.parse(saved) : []` has no
try/catch, so `JSON.parse` throwing on corrupt data escapes the `useState`
initializer.  An absent key does default to the empty collection, but a
stored string that fails to parse crashes initialization. -/
theorem initCollection_malformed_crashes :
    initCollection none (fun _ => none) = InitResult.ok [] ∧
    initCollection (some "not json") (fun _ => none) = InitResult.crash := by
  constructor
  · rfl
  · rfl

/-! ## C8: search double failure -/

/-- C8: for every non-blank query and every prior result list, when both
the primary request and the single fallback request fail (network error or
unparsable payload), `searchMusic` leaves the result list exactly as it
was, fires the user-visible alert, and clears the loading flag. -/
theorem search_double_failure_preserves_results (query : String)
    (prior : List Track) (h : jsTrim query ≠ "") :
    searchMusic query prior none none =
      { tracks := prior, alerted := true, loading := false } := by
  simp [searchMusic, h]

/-- Witness for C8 at a concrete input. -/
theorem search_double_failure_preserves_results_witness :
    (jsTrim "daft punk" ≠ "") ∧
    searchMusic "daft punk" [⟨5, "x", "x", "x"⟩] none none =
      { tracks := [⟨5, "x", "x", "x"⟩], alerted := true, loading := false } :=
  ⟨by decide, search_double_failure_preserves_results "daft punk"
     [⟨5, "x", "x", "x"⟩] (by decide)⟩

/-! ## C10: togglePlayPause guard -/

/-- C10: whenever there is no mounted audio element or no current track,
`togglePlayPause` returns early: the state is unchanged and no play or
pause command is issued to the audio engine. -/
theorem togglePlayPause_noop_without_track_or_audio (s : PlaybackState)
    (h : s.audioPresent = false ∨ s.current = none) :
    togglePlayPause s = (s, none) := by
  rcases h with h | h <;> simp [togglePlayPause, h]

/-- Witness for C10 at a concrete state. -/
theorem togglePlayPause_noop_without_track_or_audio_witness :
    ((PlaybackState.mk none false true).audioPresent = false ∨
      (PlaybackState.mk none false true).current = none) ∧
    togglePlayPause (PlaybackState.mk none false true) =
      (PlaybackState.mk none false true, none) :=
  ⟨Or.inl rfl,
   togglePlayPause_noop_without_track_or_audio _ (Or.inl rfl)⟩

/-! ## C6: effective volume invariant -/

/-- C6 counterexample: the claim that the `muted ? 0 : volume` invariant
is re-established immediately when the audio session is created is false.
From the initial state (`volume = 0.7`, unmuted, no element), selecting a
track mounts the audio element with the engine default volume `1`; the
volume effect does not re-run (its dependencies `[volume, isMuted]` did
not change), so the effective volume is `1`, not `0.7`. -/
theorem volume_not_applied_on_session_creation :
    (volRun initVolumeState [VolEvent.selectTrack]).audio = some 1 ∧
    (volRun initVolumeState [VolEvent.selectTrack]).audio ≠
      some (if (volRun initVolumeState [VolEvent.selectTrack]).isMuted then 0
            else (volRun initVolumeState [VolEvent.selectTrack]).volume) := by
  constructor
  · rfl
  · intro h
    simp only [volRun, List.foldl_cons, List.foldl_nil, volStep,
      initVolumeState] at h
    rw [Option.some.injEq] at h
    norm_num at h

/-- C6 amended: while an audio element is mounted, every `setVolume` or
`setMuted` event re-establishes `effective volume = muted ? 0 : volume`,
and the sequence `setMuted(true); setVolume(x); setMuted(false)` leaves
the effective volume at `x` (not the pre-mute value).  The invariant is
NOT re-applied when the audio session is first created (see the
counterexample): a freshly mounted element keeps the engine default
volume until the next volume or mute change. -/
theorem volume_invariant_after_volume_mute_events (s : VolumeState) (x : ℚ)
    (h : s.audio.isSome = true) :
    ((volStep s (VolEvent.setVolume x)).audio =
      some (if (volStep s (VolEvent.setVolume x)).isMuted then 0
            else (volStep s (VolEvent.setVolume x)).volume)) ∧
    (∀ b, (volStep s (VolEvent.setMuted b)).audio =
      some (if (volStep s (VolEvent.setMuted b)).isMuted then 0
            else (volStep s (VolEvent.setMuted b)).volume)) ∧
    (volRun s [VolEvent.setMuted true, VolEvent.setVolume x,
               VolEvent.setMuted false]).audio = some x := by
  obtain ⟨vol, m, a⟩ := s
  cases a with
  | none => simp at h
  | some v =>
    refine ⟨?_, ?_, ?_⟩
    · cases m <;> simp [volStep]
    · intro b
      cases b <;> simp [volStep]
    · simp [volRun, volStep]

/-- Witness for the C6 amended theorem at a concrete state. -/
theorem volume_invariant_after_volume_mute_events_witness :
    ((VolumeState.mk (7/10) false (some 1)).audio.isSome = true) ∧
    (((volStep (VolumeState.mk (7/10) false (some 1)) (VolEvent.setVolume (1/2))).audio =
      some (if (volStep (VolumeState.mk (7/10) false (some 1)) (VolEvent.setVolume (1/2))).isMuted then 0
            else (volStep (VolumeState.mk (7/10) false (some 1)) (VolEvent.setVolume (1/2))).volume)) ∧
    (∀ b, (volStep (VolumeState.mk (7/10) false (some 1)) (VolEvent.setMuted b)).audio =
      some (if (volStep (VolumeState.mk (7/10) false (some 1)) (VolEvent.setMuted b)).isMuted then 0
            else (volStep (VolumeState.mk (7/10) false (some 1)) (VolEvent.setMuted b)).volume)) ∧
    (volRun (VolumeState.mk (7/10) false (some 1))
        [VolEvent.setMuted true, VolEvent.setVolume (1/2),
         VolEvent.setMuted false]).audio = some (1/2)) :=
  ⟨rfl, volume_invariant_after_volume_mute_events
    (VolumeState.mk (7/10) false (some 1)) (1/2) rfl⟩

/-! ## C9: progress reporting -/

theorem jsOrZero_ne_nan (x : JsNum) : jsOrZero x ≠ JsNum.nan := by
  unfold jsOrZero
  by_cases hf : x.falsy = true
  · rw [if_pos hf]
    simp
  · rw [if_neg hf]
    cases x <;> simp_all [JsNum.falsy]

/-- C9: on a time update, the progress value passed to the presentation
layer is never `NaN`; when the duration is unknown (`NaN`) it is `0`, and
for a known positive duration it is the fraction `currentTime / duration`
expressed as a percentage (`× 100`), the scale the presentation layer
consumes. -/
theorem timeUpdate_progress_never_nan (c d : ℚ) (hd : 0 < d) :
    (∀ ct dur : JsNum, handleTimeUpdate ct dur ≠ JsNum.nan) ∧
    handleTimeUpdate (JsNum.num c) JsNum.nan = JsNum.num 0 ∧
    handleTimeUpdate (JsNum.num c) (JsNum.num d) = JsNum.num (c / d * 100) := by
  refine ⟨fun ct dur => jsOrZero_ne_nan _, rfl, ?_⟩
  have hdne : d ≠ 0 := ne_of_gt hd
  by_cases hc : c = 0
  · subst hc
    simp [handleTimeUpdate, JsNum.div, JsNum.mul, jsOrZero, JsNum.falsy, hdne]
  · have hq : c / d * 100 ≠ 0 :=
      mul_ne_zero (div_ne_zero hc hdne) (by norm_num)
    simp [handleTimeUpdate, JsNum.div, JsNum.mul, jsOrZero, JsNum.falsy, hdne, hq]

/-- Witness for C9 at concrete inputs. -/
theorem timeUpdate_progress_never_nan_witness :
    ((0 : ℚ) < 2) ∧
    ((∀ ct dur : JsNum, handleTimeUpdate ct dur ≠ JsNum.nan) ∧
    handleTimeUpdate (JsNum.num 1) JsNum.nan = JsNum.num 0 ∧
    handleTimeUpdate (JsNum.num 1) (JsNum.num 2) = JsNum.num (1 / 2 * 100)) :=
  ⟨by norm_num, timeUpdate_progress_never_nan 1 2 (by norm_num)⟩

/-! ## C7: seeking -/

/-- C7 counterexample: the seek handler does not clamp.  With the audio
element mounted, a duration of `10` and a click fraction of `1.5`
(click position 15 on a bar of width 10), the code assigns
`currentTime = 15`, i.e. `1.5 × duration`, whereas the claim says the
position is `clamp(1.5, 0, 1) × duration = 10`. -/
theorem seek_no_clamp_counterexample :
    handleProgressClick true (JsNum.num 10) (JsNum.num 15) (JsNum.num 10) =
      SeekOutcome.seeked (JsNum.num 15) (JsNum.num 150) ∧
    JsNum.num (15 : ℚ) ≠
      JsNum.num (max 0 (min 1 ((15 : ℚ) / 10)) * 10) := by
  constructor
  · show SeekOutcome.seeked
      (((((JsNum.num 15).div (JsNum.num 10)).mul (JsNum.num 100)).div
        (JsNum.num 100)).mul (JsNum.num 10))
      (((JsNum.num 15).div (JsNum.num 10)).mul (JsNum.num 100)) = _
    norm_num [JsNum.div, JsNum.mul]
  · intro h
    rw [JsNum.num.injEq] at h
    norm_num at h

/-- C7 amended: `handleProgressClick` performs no clamping at all: with
the audio element mounted, nonzero bar width and a finite duration `d`,
it assigns `currentTime = (clickPosition / offsetWidth) × d` for ANY
fraction, including those above 1 or below 0; it is a no-op only when the
audio element is absent; and when the duration is unknown (`NaN`) the
computed time is non-finite, so the `currentTime` assignment throws
instead of being a no-op. -/
theorem seek_sets_unclamped_position (cp w d : ℚ) (hw : w ≠ 0) :
    handleProgressClick true (JsNum.num d) (JsNum.num cp) (JsNum.num w) =
      SeekOutcome.seeked (JsNum.num (cp / w * d)) (JsNum.num (cp / w * 100)) ∧
    (∀ dur c ww, handleProgressClick false dur c ww = SeekOutcome.noop) ∧
    handleProgressClick true JsNum.nan (JsNum.num cp) (JsNum.num w) =
      SeekOutcome.seekError := by
  have h100 : (100 : ℚ) ≠ 0 := by norm_num
  refine ⟨?_, fun dur c ww => rfl, ?_⟩
  · have harg : cp / w * 100 / 100 * d = cp / w * d := by
      field_simp
      ring
    simp [handleProgressClick, JsNum.div, JsNum.mul, JsNum.isFinite, hw, h100,
      harg]
  · simp [handleProgressClick, JsNum.div, JsNum.mul, JsNum.isFinite, hw]

/-- Witness for the C7 amended theorem at concrete inputs. -/
theorem seek_sets_unclamped_position_witness :
    ((10 : ℚ) ≠ 0) ∧
    (handleProgressClick true (JsNum.num 20) (JsNum.num 5) (JsNum.num 10) =
      SeekOutcome.seeked (JsNum.num ((5 : ℚ) / 10 * 20))
        (JsNum.num ((5 : ℚ) / 10 * 100)) ∧
    (∀ dur c ww, handleProgressClick false dur c ww = SeekOutcome.noop) ∧
    handleProgressClick true JsNum.nan (JsNum.num 5) (JsNum.num 10) =
      SeekOutcome.seekError) :=
  ⟨by norm_num, seek_sets_unclamped_position 5 10 20 (by norm_num)⟩

/-! ## C4 and C5: next/previous navigation -/

theorem jsFindIndex_eq_of_first (p : Track → Bool) (l : List Track)
    (j : Nat) (hj : j < l.length)
    (hp : p (l.get ⟨j, hj⟩) = true)
    (hfirst : ∀ k (hk : k < l.length), k < j → p (l.get ⟨k, hk⟩) = false) :
    jsFindIndex p l = (j : Int) := by
  induction l generalizing j with
  | nil => exact absurd hj (by simp)
  | cons t ts ih =>
    cases j with
    | zero =>
      have hpt : p t = true := hp
      simp [jsFindIndex, hpt]
    | succ m =>
      have h0 : p t = false := hfirst 0 (Nat.succ_pos ts.length) (Nat.succ_pos m)
      have hm : m < ts.length := Nat.lt_of_succ_lt_succ hj
      have hpm : p (ts.get ⟨m, hm⟩) = true := hp
      have hfm : ∀ k (hk : k < ts.length), k < m → p (ts.get ⟨k, hk⟩) = false := by
        intro k hk hkm
        exact hfirst (k + 1) (Nat.succ_lt_succ hk) (Nat.succ_lt_succ hkm)
      have hrec : jsFindIndex p ts = (m : Int) := ih m hm hpm hfm
      have hne : ¬((m : Int) = -1) := by omega
      simp only [jsFindIndex, h0, Bool.false_eq_true, if_false, hrec, hne,
        ite_false]
      omega

theorem nodup_id_get_ne (l : List Track) (hnd : (l.map Track.id).Nodup)
    (k j : Nat) (hk : k < l.length) (hj : j < l.length) (hkj : k ≠ j) :
    (l.get ⟨k, hk⟩).id ≠ (l.get ⟨j, hj⟩).id := by
  intro h
  have hkm : k < (l.map Track.id).length := by simpa using hk
  have hjm : j < (l.map Track.id).length := by simpa using hj
  have hget : (l.map Track.id).get ⟨k, hkm⟩ = (l.map Track.id).get ⟨j, hjm⟩ := by
    rw [List.get_map, List.get_map]
    exact h
  have heq := (List.Nodup.get_inj_iff hnd).mp hget
  exact hkj (congrArg Fin.val heq)

theorem playNextSel_get (tracks : List Track)
    (hnd : (tracks.map Track.id).Nodup) (j : Nat) (hj : j < tracks.length) :
    playNextSel tracks (tracks.get ⟨j, hj⟩) =
      tracks.get? ((j + 1) % tracks.length) := by
  have hlen : ¬(tracks.length = 0) := by omega
  have hfi : jsFindIndex (fun t => t.id == (tracks.get ⟨j, hj⟩).id) tracks
      = (j : Int) := by
    refine jsFindIndex_eq_of_first _ tracks j hj (by simp) ?_
    intro k hk hkj
    simp only [beq_eq_false_iff_ne, ne_eq]
    exact nodup_id_get_ne tracks hnd k j hk hj (Nat.ne_of_lt hkj)
  have h1 : playNextSel tracks (tracks.get ⟨j, hj⟩) =
      jsIndex tracks (((j : Int) + 1) % (tracks.length : Int)) := by
    simp only [playNextSel, hfi]
    rw [if_neg hlen]
  have hcast : ((j : Int) + 1) % (tracks.length : Int) =
      (((j + 1) % tracks.length : Nat) : Int) := by
    push_cast
    rfl
  rw [h1]
  unfold jsIndex
  rw [hcast, if_pos (Int.natCast_nonneg _), Int.toNat_natCast]

theorem playPrevSel_get (tracks : List Track)
    (hnd : (tracks.map Track.id).Nodup) (j : Nat) (hj : j < tracks.length) :
    playPrevSel tracks (tracks.get ⟨j, hj⟩) =
      tracks.get? (if j = 0 then tracks.length - 1 else j - 1) := by
  have hlen : ¬(tracks.length = 0) := by omega
  have hfi : jsFindIndex (fun t => t.id == (tracks.get ⟨j, hj⟩).id) tracks
      = (j : Int) := by
    refine jsFindIndex_eq_of_first _ tracks j hj (by simp) ?_
    intro k hk hkj
    simp only [beq_eq_false_iff_ne, ne_eq]
    exact nodup_id_get_ne tracks hnd k j hk hj (Nat.ne_of_lt hkj)
  have h1 : playPrevSel tracks (tracks.get ⟨j, hj⟩) =
      jsIndex tracks (if (j : Int) = 0 then (tracks.length : Int) - 1
                      else (j : Int) - 1) := by
    simp only [playPrevSel, hfi]
    rw [if_neg hlen]
  rw [h1]
  by_cases hj0 : j = 0
  · subst hj0
    have hc : ((0 : Nat) : Int) = 0 := rfl
    rw [if_pos hc, if_pos rfl]
    unfold jsIndex
    have hge : (0 : Int) ≤ (tracks.length : Int) - 1 := by omega
    rw [if_pos hge]
    have ht : ((tracks.length : Int) - 1).toNat = tracks.length - 1 := by omega
    rw [ht]
  · have hjne : ¬((j : Int) = 0) := by omega
    rw [if_neg hjne, if_neg hj0]
    unfold jsIndex
    have hge : (0 : Int) ≤ (j : Int) - 1 := by omega
    rw [if_pos hge]
    have ht : ((j : Int) - 1).toNat = j - 1 := by omega
    rw [ht]

theorem iterateNext_get (tracks : List Track)
    (hnd : (tracks.map Track.id).Nodup) (n : Nat) :
    ∀ (j : Nat) (hj : j < tracks.length),
      iterateNext tracks n (tracks.get ⟨j, hj⟩) =
        tracks.get? ((j + n) % tracks.length) := by
  induction n with
  | zero =>
    intro j hj
    have h0 : (j + 0) % tracks.length = j := by
      simpa using Nat.mod_eq_of_lt hj
    rw [h0, List.get?_eq_get hj]
    rfl
  | succ n ih =>
    intro j hj
    have hpos : 0 < tracks.length := by omega
    have hlt : (j + 1) % tracks.length < tracks.length := Nat.mod_lt _ hpos
    simp only [iterateNext]
    rw [playNextSel_get tracks hnd j hj, List.get?_eq_get hlt,
      Option.some_bind, ih _ hlt]
    congr 1
    rw [Nat.mod_add_mod]
    congr 1
    omega

/-- C4: for a result list with pairwise-distinct identifiers and a current
track sitting at index `i` of the list, `playNext` selects the track at
index `(i + 1) % length`, `playPrevious` selects the track at index
`length - 1` when `i = 0` and `i - 1` otherwise, and `length` successive
`playNext` selections come back to the original current track. -/
theorem playback_circular_navigation (tracks : List Track) (cur : Track)
    (i : Nat) (hi : i < tracks.length)
    (hnd : (tracks.map Track.id).Nodup)
    (hcur : tracks.get ⟨i, hi⟩ = cur) :
    playNextSel tracks cur = tracks.get? ((i + 1) % tracks.length) ∧
    playPrevSel tracks cur =
      tracks.get? (if i = 0 then tracks.length - 1 else i - 1) ∧
    iterateNext tracks tracks.length cur = some cur := by
  subst hcur
  refine ⟨playNextSel_get tracks hnd i hi, playPrevSel_get tracks hnd i hi, ?_⟩
  rw [iterateNext_get tracks hnd tracks.length i hi]
  have h1 : (i + tracks.length) % tracks.length = i := by
    rw [Nat.add_mod_right]
    exact Nat.mod_eq_of_lt hi
  rw [h1, List.get?_eq_get hi]

/-- Witness for C4 at a concrete two-element result list. -/
theorem playback_circular_navigation_witness :
    ((0 : Nat) < ([(⟨1, "a", "a", "a"⟩ : Track), ⟨2, "b", "b", "b"⟩]).length) ∧
    (([(⟨1, "a", "a", "a"⟩ : Track), ⟨2, "b", "b", "b"⟩].map Track.id).Nodup) ∧
    ([(⟨1, "a", "a", "a"⟩ : Track), ⟨2, "b", "b", "b"⟩].get
        ⟨0, by decide⟩ = ⟨1, "a", "a", "a"⟩) ∧
    (playNextSel [⟨1, "a", "a", "a"⟩, ⟨2, "b", "b", "b"⟩] ⟨1, "a", "a", "a"⟩ =
       [(⟨1, "a", "a", "a"⟩ : Track), ⟨2, "b", "b", "b"⟩].get? ((0 + 1) % 2) ∧
     playPrevSel [⟨1, "a", "a", "a"⟩, ⟨2, "b", "b", "b"⟩] ⟨1, "a", "a", "a"⟩ =
       [(⟨1, "a", "a", "a"⟩ : Track), ⟨2, "b", "b", "b"⟩].get?
         (if (0 : Nat) = 0 then 2 - 1 else 0 - 1) ∧
     iterateNext [⟨1, "a", "a", "a"⟩, ⟨2, "b", "b", "b"⟩] 2 ⟨1, "a", "a", "a"⟩ =
       some ⟨1, "a", "a", "a"⟩) :=
  ⟨by decide, by decide, rfl,
   playback_circular_navigation [⟨1, "a", "a", "a"⟩, ⟨2, "b", "b", "b"⟩]
     ⟨1, "a", "a", "a"⟩ 0 (by decide) (by decide) rfl⟩

/-- C5: the claim that `next()` and `previous()` must not throw when the
current track's identifier is absent from the result list is false for
`previous()`: `findIndex` returns `-1`, so `prevIndex` is `-2`,
`tracks[-2]` is `undefined`, and `playTrack(undefined)` throws a
`TypeError` when the recently-played updater reads `track.id`.  `next()`
does not throw, but lands on index 0 (as if the current track were at the
LAST index, not index 0 as the claim states). -/
theorem playPrevious_typeError_on_absent_id :
    playPrevious [⟨1, "a", "a", "a"⟩] [] (some ⟨2, "b", "b", "b"⟩) =
      PlayOutcome.typeError ∧
    playNext [⟨1, "a", "a", "a"⟩] [] (some ⟨2, "b", "b", "b"⟩) =
      PlayOutcome.played ⟨1, "a", "a", "a"⟩ [⟨1, "a", "a", "a"⟩] := by
  constructor
  · rfl
  · rfl
